import Mathlib

/-!
Verification development for the panphy-sandbox classroom apps.

The definitions below are a shallow embedding of the Python sources:
* `src/002.py` — the AI Physics Examiner: `clamp_int`, `canvas_has_ink`,
  the marking-call fallback ladder of `_call_openai_structured`, the
  message construction and result validation of `get_gpt_feedback`, and
  the two submit handlers;
* `src/001.py` — the Digital Lab Assistant: the resistance column,
  the least-squares fit of the R-vs-L data and the gradient
  percentage-difference check.

Machine integers are modelled as `Int` (Python integers are unbounded),
lab quantities as `ℚ`, fallible steps as `Option`.  External library
functions (`json.loads`, `str`, `int`, `np.polyfit`) are modelled
explicitly where the code's behaviour depends on them; each such model
carries a comment naming the restriction.
-/

/-- JSON values as produced by `json.loads`, restricted to integer
numerals (the reports exchanged by the app are integer-valued; float
literals are outside this model and fail to parse). -/
inductive JVal where
  | jnull : JVal
  | jbool : Bool → JVal
  | jnum : Int → JVal
  | jstr : String → JVal
  | jarr : List JVal → JVal
  | jobj : List (String × JVal) → JVal

/-- Python whitespace set used by `str.strip()` (ASCII part). -/
def pyWs (c : Char) : Bool :=
  c = ' ' || c = '\t' || c = '\n' || c = '\r' || c = '\x0b' || c = '\x0c'

/-- Model of Python `str.strip()`: remove leading and trailing whitespace. -/
def pyStrip (s : String) : String :=
  String.mk (((s.toList.dropWhile pyWs).reverse.dropWhile pyWs).reverse)

/-- Render a list of JSON values, comma separated (helper for `pyStr`). -/
def pyReprList (sep : String) (f : JVal → String) : List JVal → String
  | [] => ""
  | [x] => f x
  | x :: xs => f x ++ sep ++ pyReprList sep f xs

mutual
/-- Model of Python `repr` on values decoded from JSON (strings get
single quotes, containers recurse).  Only its nonemptiness and its value
on strings matter to the validator. -/
def pyRepr : JVal → String
  | .jnull => "None"
  | .jbool b => if b then "True" else "False"
  | .jnum n => toString n
  | .jstr s => "\x27" ++ s ++ "\x27"
  | .jarr xs => "[" ++ pyReprArr xs ++ "]"
  | .jobj kvs => "\x7b" ++ pyReprObj kvs ++ "\x7d"

def pyReprArr : List JVal → String
  | [] => ""
  | [x] => pyRepr x
  | x :: xs => pyRepr x ++ ", " ++ pyReprArr xs

def pyReprObj : List (String × JVal) → String
  | [] => ""
  | [kv] => "\x27" ++ kv.1 ++ "\x27: " ++ pyRepr kv.2
  | kv :: kvs => "\x27" ++ kv.1 ++ "\x27: " ++ pyRepr kv.2 ++ ", " ++ pyReprObj kvs
end

/-- Model of Python `str()` on values decoded from JSON. -/
def pyStr : JVal → String
  | .jstr s => s
  | .jnull => "None"
  | .jbool b => if b then "True" else "False"
  | .jnum n => toString n
  | .jarr xs => "[" ++ pyReprArr xs ++ "]"
  | .jobj kvs => "\x7b" ++ pyReprObj kvs ++ "\x7d"

/-- Digits of a decimal literal to a natural number. -/
def digitsToNat (ds : List Char) : Nat :=
  ds.foldl (fun a c => a * 10 + (c.toNat - 48)) 0

/-- Model of Python `int(s)` on a string: optional surrounding
whitespace, optional sign, then decimal digits; anything else raises
`ValueError` (`none`).  (Underscore digit grouping is not modelled.) -/
def pyIntOfString (s : String) : Option Int :=
  let body := (pyStrip s).toList
  let signed : Bool × List Char :=
    match body with
    | '-' :: ds => (true, ds)
    | '+' :: ds => (false, ds)
    | ds => (false, ds)
  let neg := signed.1
  let ds := signed.2
  if ds ≠ [] && ds.all Char.isDigit then
    some (if neg then -(digitsToNat ds : Int) else (digitsToNat ds : Int))
  else
    none

/-- Model of Python `int(value)`: `none` is the `ValueError`/`TypeError`
branch of `clamp_int`. -/
def pyInt : JVal → Option Int
  | .jnum n => some n
  | .jbool b => some (if b then 1 else 0)
  | .jstr s => pyIntOfString s
  | _ => none

/-- `clamp_int` from src/002.py: `int(value)` with `default` on failure,
then `max(lo, min(hi, v))`. -/
def clamp_int (value : JVal) (lo hi default : Int) : Int :=
  max lo (min hi ((pyInt value).getD default))

/-- Dictionary lookup, `data.get(key)` on a decoded JSON object. -/
def jget (kvs : List (String × JVal)) (k : String) : Option JVal :=
  (kvs.find? (fun kv => kv.1 = k)).map (fun kv => kv.2)

/-- JSON whitespace for the parser. -/
def jsonWs (c : Char) : Bool :=
  c = ' ' || c = '\t' || c = '\n' || c = '\r'

/-- Skip JSON whitespace. -/
def skipWs : List Char → List Char
  | [] => []
  | c :: cs => if jsonWs c then skipWs cs else c :: cs

/-- Parse the body of a JSON string after the opening quote, handling
the basic escapes. -/
def parseStringBody : List Char → Option (String × List Char)
  | [] => none
  | '"' :: rest => some ("", rest)
  | '\\' :: c :: rest =>
    (parseStringBody rest).bind (fun sr =>
      let esc : Option Char :=
        if c = '"' then some '"'
        else if c = '\\' then some '\\'
        else if c = '/' then some '/'
        else if c = 'n' then some '\n'
        else if c = 't' then some '\t'
        else if c = 'r' then some '\r'
        else none
      esc.map (fun e => (String.mk (e :: sr.1.toList), sr.2)))
  | '\\' :: [] => none
  | c :: rest =>
    (parseStringBody rest).map (fun sr => (String.mk (c :: sr.1.toList), sr.2))

/-- Take a maximal run of decimal digits. -/
def spanDigits : List Char → List Char × List Char
  | [] => ([], [])
  | c :: cs =>
    if c.isDigit then
      let r := spanDigits cs
      (c :: r.1, r.2)
    else
      ([], c :: cs)

mutual
/-- Recursive-descent JSON value parser (fuel-indexed), the model of
`json.loads`' grammar on the integer-numeral subset. -/
def parseJVal : Nat → List Char → Option (JVal × List Char)
  | 0, _ => none
  | fuel + 1, cs0 =>
    match skipWs cs0 with
    | [] => none
    | c :: rest =>
      if c = '"' then
        (parseStringBody rest).map (fun sr => (JVal.jstr sr.1, sr.2))
      else if c = '-' then
        let dr := spanDigits rest
        if dr.1 = [] then none
        else some (JVal.jnum (-(digitsToNat dr.1 : Int)), dr.2)
      else if c.isDigit then
        let dr := spanDigits (c :: rest)
        some (JVal.jnum (digitsToNat dr.1 : Int), dr.2)
      else if c = '[' then
        match skipWs rest with
        | ']' :: r => some (JVal.jarr [], r)
        | r => (parseArrItems fuel r).map (fun vr => (JVal.jarr vr.1, vr.2))
      else if c = '\x7b' then
        match skipWs rest with
        | '\x7d' :: r => some (JVal.jobj [], r)
        | r => (parseObjItems fuel r).map (fun vr => (JVal.jobj vr.1, vr.2))
      else
        match c :: rest with
        | 't' :: 'r' :: 'u' :: 'e' :: r => some (JVal.jbool true, r)
        | 'f' :: 'a' :: 'l' :: 's' :: 'e' :: r => some (JVal.jbool false, r)
        | 'n' :: 'u' :: 'l' :: 'l' :: r => some (JVal.jnull, r)
        | _ => none

/-- One or more comma-separated array items, then `]`. -/
def parseArrItems : Nat → List Char → Option (List JVal × List Char)
  | 0, _ => none
  | fuel + 1, cs =>
    (parseJVal fuel cs).bind (fun vr =>
      match skipWs vr.2 with
      | ',' :: r =>
        (parseArrItems fuel r).map (fun lr => (vr.1 :: lr.1, lr.2))
      | ']' :: r => some ([vr.1], r)
      | _ => none)

/-- One or more comma-separated `"key": value` pairs, then the closing
brace. -/
def parseObjItems : Nat → List Char → Option (List (String × JVal) × List Char)
  | 0, _ => none
  | fuel + 1, cs =>
    match skipWs cs with
    | '"' :: r1 =>
      (parseStringBody r1).bind (fun kr =>
        match skipWs kr.2 with
        | ':' :: r2 =>
          (parseJVal fuel r2).bind (fun vr =>
            match skipWs vr.2 with
            | ',' :: r3 =>
              (parseObjItems fuel r3).map (fun lr => ((kr.1, vr.1) :: lr.1, lr.2))
            | '\x7d' :: r3 => some ([(kr.1, vr.1)], r3)
            | _ => none)
        | _ => none)
    | _ => none
end

/-- Model of `json.loads`: the whole input must be one JSON document
(surrounding whitespace allowed); otherwise the exception branch
(`none`). -/
def jsonLoads (s : String) : Option JVal :=
  match parseJVal (s.length + 1) s.toList with
  | some (v, rest) => if skipWs rest = [] then some v else none
  | none => none

/-- The validated marking report returned by `get_gpt_feedback`
(src/002.py lines 204-285). -/
structure Report where
  error : Bool
  marks_awarded : Int
  max_marks : Int
  summary : String
  feedback_points : List String
  next_steps : List String
deriving DecidableEq, Repr

/-- The `except` branch of `get_gpt_feedback`: parse or call failure. -/
def failReport (max_marks : Int) : Report :=
  { error := true
    marks_awarded := 0
    max_marks := max_marks
    summary := "System Error: marking failed. Please try submitting again."
    feedback_points := ["Try resubmitting with clearer working and labels."]
    next_steps := [] }

/-- The missing-API-key branch of `get_gpt_feedback`. -/
def noKeyReport (max_marks : Int) : Report :=
  { error := true
    marks_awarded := 0
    max_marks := max_marks
    summary := "API Key missing. Please check .streamlit/secrets.toml."
    feedback_points := []
    next_steps := [] }

/-- The string cleanup applied to each feedback list entry:
`str(x).strip()`. -/
def cleanItem (x : JVal) : String := pyStrip (pyStr x)

/-- `[str(x).strip() for x in l if str(x).strip()][:8]`. -/
def cleanList (l : List JVal) : List String :=
  (((l.map cleanItem).filter (fun s => s ≠ ""))).take 8

/-- The success branch of `get_gpt_feedback` on the decoded JSON object
`data` (src/002.py lines 253-274): clamp the score, default and coerce
the summary, sanitise and truncate the two feedback lists, and force
`max_marks` to the question's value. -/
def validateReport (data : List (String × JVal)) (max_marks : Int) : Report :=
  let marks_awarded := clamp_int ((jget data "marks_awarded").getD (.jnum 0)) 0 max_marks 0
  let summary0 := pyStrip (pyStr ((jget data "summary").getD (.jstr "")))
  let summary := if summary0 = "" then "Marked according to GCSE criteria." else summary0
  let fp0 := (jget data "feedback_points").getD (.jarr [])
  let ns0 := (jget data "next_steps").getD (.jarr [])
  let feedback_points := match fp0 with
    | .jarr xs => cleanList xs
    | _ => []
  let next_steps := match ns0 with
    | .jarr xs => cleanList xs
    | _ => []
  { error := false
    marks_awarded := marks_awarded
    max_marks := max_marks
    summary := summary
    feedback_points := feedback_points
    next_steps := next_steps }

/-- `json.loads(raw)` followed by the attribute accesses of the success
branch: a non-object decode raises inside the `try` (`.get` on a
non-dict) and lands in the `except` branch, as does a parse failure. -/
def reportOfRaw (raw : String) (max_marks : Int) : Report :=
  match jsonLoads raw with
  | some (.jobj data) => validateReport data max_marks
  | some _ => failReport max_marks
  | none => failReport max_marks

/-- Outcomes the environment supplies for the five possible external
calls of `_call_openai_structured` (src/002.py lines 129-202): the three
Responses-API attempts (one per reasoning effort "minimal", "none",
"low") and the two Chat-Completions attempts (with and then without
`reasoning_effort`).  `none` models the call raising; `some s` models it
returning body `s` (already `or ""`-defaulted by the source). -/
structure CallEnv where
  p1 : Option String
  p2 : Option String
  p3 : Option String
  chatA : Option String
  chatB : Option String
deriving DecidableEq, Repr

/-- One Responses-API attempt: succeed only when the call did not raise
and `raw.strip()` is nonempty (`if raw.strip(): return raw`). -/
def okPrimary (r : Option String) : Option String :=
  match r with
  | some raw => if pyStrip raw ≠ "" then some raw else none
  | none => none

/-- `_call_openai_structured`, instrumented with call counts: result
(`none` = the final chat attempt raised, so the exception escapes to
`get_gpt_feedback`), number of Responses-API calls made, number of
Chat-Completions calls made.  The effort loop stops at the first
nonempty success; the chat fallback runs only after all three primary
attempts failed or returned blank; the second chat call happens only if
the first raised. -/
def call_openai_structured (env : CallEnv) : Option String × Nat × Nat :=
  match okPrimary env.p1 with
  | some raw => (some raw, 1, 0)
  | none =>
    match okPrimary env.p2 with
    | some raw => (some raw, 2, 0)
    | none =>
      match okPrimary env.p3 with
      | some raw => (some raw, 3, 0)
      | none =>
        match env.chatA with
        | some c => (some c, 3, 1)
        | none =>
          match env.chatB with
          | some c => (some c, 3, 2)
          | none => (none, 3, 2)

/-- `get_gpt_feedback` for a client-present session: run the call
ladder; an escaped exception lands in the `except` branch, otherwise the
body is parsed and validated. -/
def pipelineReport (env : CallEnv) (max_marks : Int) : Report :=
  match (call_openai_structured env).1 with
  | none => failReport max_marks
  | some raw => reportOfRaw raw max_marks

/-- `get_gpt_feedback` including the missing-client early return. -/
def get_gpt_feedback (hasClient : Bool) (env : CallEnv) (max_marks : Int) : Report :=
  if hasClient then pipelineReport env max_marks else noKeyReport max_marks

/-- A canvas pixel buffer from `st_canvas`: the row-major list of
pixels, each a list of channel values, together with the recorded
channel count (`shape[2]`; the `ndim != 3` malformed-shape guard is
represented by the well-formed structure itself). -/
structure CanvasImage where
  pixels : List (List Int)
  channels : Nat
deriving DecidableEq, Repr

/-- `np.abs(rgb - 255).sum(axis=2)` for one pixel: distance of the
first three channels from the white background (255,255,255). -/
def pxDiff (p : List Int) : Int :=
  |(p.getD 0 0) - 255| + |(p.getD 1 0) - 255| + |(p.getD 2 0) - 255|

/-- The ink mask of `canvas_has_ink`: colour deviation beyond the
tolerance 25, and, when an alpha channel exists, visibility
`alpha > 10`. -/
def isInk (channels : Nat) (p : List Int) : Bool :=
  if channels ≥ 4 then decide (pxDiff p > 25) && decide (p.getD 3 0 > 10)
  else decide (pxDiff p > 25)

/-- `canvas_has_ink` from src/002.py lines 65-89: `None` and
fewer-than-3-channel buffers are inkless; otherwise more than 50 ink
pixels count as a drawing. -/
def canvas_has_ink (image_data : Option CanvasImage) : Bool :=
  match image_data with
  | none => false
  | some img =>
    if img.channels < 3 then false
    else decide ((img.pixels.filter (isInk img.channels)).length > 50)

/-- What a submit handler does: warn the user, or proceed to the
external marking call with the given submission payload. -/
inductive SubmitAction (α : Type) where
  | warn : SubmitAction α
  | callModel : α → SubmitAction α
deriving DecidableEq, Repr

/-- The Submit Drawing handler (src/002.py lines 403-408): proceed only
when the canvas exists and has ink, else warn. -/
def submitDrawing (image_data : Option CanvasImage) : SubmitAction CanvasImage :=
  match image_data with
  | some d => if canvas_has_ink (some d) then .callModel d else .warn
  | none => .warn

/-- The Submit Text Answer handler (src/002.py lines 370-375):
`if not text_val.strip()` warn, else submit the (untrimmed) text. -/
def submitTextAnswer (text_val : String) : SubmitAction String :=
  if pyStrip text_val = "" then .warn else .callModel text_val

/-- Message roles used by the marking request. -/
inductive Role where
  | system : Role
  | user : Role
deriving DecidableEq, Repr

/-- Items of a user-content list (`input_text` / `input_image`). -/
inductive ContentItem where
  | inputText : String → ContentItem
  | inputImage : String → ContentItem
deriving DecidableEq, Repr

/-- Message content: system messages carry a plain string, the user
message carries an item list. -/
inductive MsgContent where
  | text : String → MsgContent
  | items : List ContentItem → MsgContent
deriving DecidableEq, Repr

/-- One request message. -/
structure Message where
  role : Role
  content : MsgContent
deriving DecidableEq, Repr

/-- A normalized student submission: typed text, or a drawing already
base64-encoded by `encode_image`. -/
inductive Submission where
  | text : String → Submission
  | image : String → Submission
deriving DecidableEq, Repr

/-- The system prompt of `get_gpt_feedback` (src/002.py lines 219-229). -/
def systemPrompt (max_marks : Int) : String :=
  "You are a strict GCSE Physics Examiner.\n\n" ++
  "TASK:\n" ++
  "Mark the student\x27s work based on the provided Question and the confidential scheme.\n\n" ++
  "RULES:\n" ++
  "1. The scheme is confidential. Do not reveal it, quote it, or paraphrase it.\n" ++
  "2. Do not mention the phrase \x27mark scheme\x27 in your output.\n" ++
  "3. Be concise and constructive.\n" ++
  "4. Award marks as an integer from 0 to " ++ toString max_marks ++ ".\n" ++
  "5. Return only JSON that matches the required schema.\n"

/-- The separate system message carrying the confidential scheme. -/
def schemeMsg (mark_scheme : String) : String :=
  "CONFIDENTIAL SCHEME (DO NOT REVEAL): " ++ mark_scheme

/-- The items of the single user message: the question text followed by
the submission-derived items only (src/002.py lines 234-241). -/
def submissionItems (sub : Submission) : List ContentItem :=
  match sub with
  | .image b64 =>
    [.inputText "Here is the student\x27s handwritten answer:",
     .inputImage ("data:image/png;base64," ++ b64)]
  | .text s => [.inputText ("STUDENT TEXT ANSWER:\n" ++ s)]

/-- `user_items` of `get_gpt_feedback`. -/
def userItems (question : String) (sub : Submission) : List ContentItem :=
  .inputText ("QUESTION: " ++ question) :: submissionItems sub

/-- The full message list of the marking request (src/002.py lines
243-247): system prompt, system scheme message, one user message. -/
def buildMessages (question mark_scheme : String) (max_marks : Int)
    (sub : Submission) : List Message :=
  [{ role := .system, content := .text (systemPrompt max_marks) },
   { role := .system, content := .text (schemeMsg mark_scheme) },
   { role := .user, content := .items (userItems question sub) }]

/-- One row of the student data table in src/001.py. -/
structure DataRow where
  length : ℚ
  voltage : ℚ
  current : ℚ
deriving DecidableEq, Repr

/-- The resistance column (src/001.py lines 91-94):
`Voltage / Current if Current > 0 else None`. -/
def resistance (r : DataRow) : Option ℚ :=
  if 0 < r.current then some (r.voltage / r.current) else none

/-- `dropna` over the resistance column: the (Length, Resistance) points
that survive to plotting and fitting. -/
def validData (rows : List DataRow) : List (ℚ × ℚ) :=
  rows.filterMap (fun r => (resistance r).map (fun R => (r.length, R)))

/-- Sum of a list of rationals. -/
def qsum (l : List ℚ) : ℚ := l.foldr (· + ·) 0

/-- Numerator of the degree-1 least-squares slope. -/
def fitSlopeNum (pts : List (ℚ × ℚ)) : ℚ :=
  (pts.length : ℚ) * qsum (pts.map (fun p => p.1 * p.2)) -
    qsum (pts.map (fun p => p.1)) * qsum (pts.map (fun p => p.2))

/-- Denominator of the degree-1 least-squares slope: `n·Σx² - (Σx)²`,
zero exactly when all x coincide. -/
def fitSlopeDen (pts : List (ℚ × ℚ)) : ℚ :=
  (pts.length : ℚ) * qsum (pts.map (fun p => p.1 * p.1)) -
    qsum (pts.map (fun p => p.1)) * qsum (pts.map (fun p => p.1))

/-- Modelled from `np.polyfit(x, y, 1)[0]`: the exact least-squares
slope through the points, via the normal equations (defined when the x
values are not all equal; Lean's `/ 0 = 0` convention fills that
degenerate case, which every concrete input below avoids).  The source
computes this slope in float64, so model and source agree only where
the float computation is exact.  On generic data the float slope
carries rounding residue (fitting a constant nonzero column returns
roughly 1e-17, not 0); but on an identically-zero y column every
operation the least-squares solve applies to the zero right-hand side
(Householder reflections, rotations, scaling, back-substitution) maps
exact zeros to exact zeros, so `np.polyfit` returns exactly `0.0`,
matching the model's 0. -/
def fitSlope (pts : List (ℚ × ℚ)) : ℚ :=
  fitSlopeNum pts / fitSlopeDen pts

/-- The gradient percentage-difference check (src/001.py lines
142-145), instrumented: the returned Bool records whether the evaluated
division `(student_gradient - m) / m` had a zero divisor (in the source
a float64 division by zero, which numpy evaluates to `inf` under a
divide-by-zero RuntimeWarning rather than raising).  The guard in the
source tests `student_gradient != 0`, not the divisor `m`. -/
def gradDiffCheck (student_gradient m : ℚ) : ℚ × Bool :=
  if student_gradient ≠ 0 then
    (|(student_gradient - m) / m| * 100, decide (m = 0))
  else
    (100, false)

/-- Outcome of the analysis phase: the insufficient-data warning, or a
fitted slope (src/001.py lines 95-99 and 136-140). -/
inductive AnalysisStep where
  | warnInsufficient : AnalysisStep
  | fitted : ℚ → AnalysisStep
deriving DecidableEq, Repr

/-- The analysis gate: fewer than 3 valid rows warns, otherwise the
least-squares slope is computed on the valid data. -/
def analysisStep (rows : List DataRow) : AnalysisStep :=
  if (validData rows).length < 3 then .warnInsufficient
  else .fitted (fitSlope (validData rows))

/-- Whether running the analysis on `rows` with the given student
gradient evaluates a division whose divisor is zero. -/
def analysisDividesByZero (rows : List DataRow) (student_gradient : ℚ) : Bool :=
  match analysisStep rows with
  | .warnInsufficient => false
  | .fitted m => (gradDiffCheck student_gradient m).2

/-- The raw value the validator feeds into `clamp_int`:
`data.get("marks_awarded", 0)`. -/
def rawAwarded (data : List (String × JVal)) : JVal :=
  (jget data "marks_awarded").getD (.jnum 0)

/-- `isinstance(v, list)` on a decoded JSON value. -/
def isJArr : JVal → Bool
  | .jarr _ => true
  | _ => false

/-! ## Helper lemmas -/

/-- The clamp never goes below `lo`. -/
lemma clamp_int_ge (value : JVal) (lo hi default : Int) :
    lo ≤ clamp_int value lo hi default := by
  unfold clamp_int
  omega

/-- The clamp never exceeds `hi` when the range is sane. -/
lemma clamp_int_le (value : JVal) (lo hi default : Int) (h : lo ≤ hi) :
    clamp_int value lo hi default ≤ hi := by
  unfold clamp_int
  omega

/-- On an integer-convertible value the clamp is `max lo (min hi v)`. -/
lemma clamp_int_of_pyInt (value : JVal) (lo hi default v : Int)
    (h : pyInt value = some v) :
    clamp_int value lo hi default = max lo (min hi v) := by
  unfold clamp_int
  rw [h]
  rfl

/-- On a non-convertible value the clamp falls back to the default. -/
lemma clamp_int_of_fail (value : JVal) (lo hi default : Int)
    (h : pyInt value = none) :
    clamp_int value lo hi default = max lo (min hi default) := by
  unfold clamp_int
  rw [h]
  rfl

/-- The validator's awarded score is exactly the clamp of the raw
`marks_awarded` value. -/
lemma validateReport_marks (data : List (String × JVal)) (mm : Int) :
    (validateReport data mm).marks_awarded = clamp_int (rawAwarded data) 0 mm 0 := by
  rfl

/-! ## Claim theorems -/

/-- Claim C1: for every raw model response (decoded object `data`) and
question with nonnegative max marks, the validated report's awarded
score is an integer clamped into `[0, max_marks]`: a negative raw
`marks_awarded` becomes 0, one exceeding `max_marks` becomes
`max_marks`, and a non-numeric or missing one defaults to 0.  The range
bound also covers the failure report produced for any raw text. -/
theorem awarded_score_clamped (raw : String) (data : List (String × JVal))
    (mm : Int) (hmm : 0 ≤ mm) :
    (0 ≤ (reportOfRaw raw mm).marks_awarded ∧ (reportOfRaw raw mm).marks_awarded ≤ mm)
    ∧ (0 ≤ (validateReport data mm).marks_awarded ∧ (validateReport data mm).marks_awarded ≤ mm)
    ∧ (∀ n, pyInt (rawAwarded data) = some n → n < 0 →
        (validateReport data mm).marks_awarded = 0)
    ∧ (∀ n, pyInt (rawAwarded data) = some n → mm < n →
        (validateReport data mm).marks_awarded = mm)
    ∧ (pyInt (rawAwarded data) = none →
        (validateReport data mm).marks_awarded = 0)
    ∧ (jget data "marks_awarded" = none →
        (validateReport data mm).marks_awarded = 0) := by
  refine ⟨?_, ⟨?_, ?_⟩, ?_, ?_, ?_, ?_⟩
  · unfold reportOfRaw
    cases h : jsonLoads raw with
    | none => simpa [failReport] using hmm
    | some v =>
      cases v <;>
        simp [failReport, hmm, validateReport_marks, clamp_int_ge,
          clamp_int_le _ _ _ _ hmm]
  · exact (validateReport_marks _ _) ▸ clamp_int_ge _ _ _ _
  · exact (validateReport_marks _ _) ▸ clamp_int_le _ _ _ _ hmm
  · intro n h hneg
    rw [validateReport_marks, clamp_int_of_pyInt _ _ _ _ _ h]
    omega
  · intro n h hbig
    rw [validateReport_marks, clamp_int_of_pyInt _ _ _ _ _ h]
    omega
  · intro h
    rw [validateReport_marks, clamp_int_of_fail _ _ _ _ h]
    omega
  · intro h
    rw [validateReport_marks]
    unfold rawAwarded
    rw [h]
    show clamp_int (.jnum 0) 0 mm 0 = 0
    rw [clamp_int_of_pyInt (JVal.jnum 0) 0 mm 0 0 rfl]
    omega

/-- Witness for C1 at concrete inputs: raw response
`{"marks_awarded": 999}` on a 3-mark question is clamped to 3, and a
non-numeric `marks_awarded` defaults to 0. -/
theorem awarded_score_clamped_witness :
    (validateReport [("marks_awarded", JVal.jnum 999)] 3).marks_awarded = 3
    ∧ (validateReport [("marks_awarded", JVal.jstr "lots")] 3).marks_awarded = 0 := by
  have h := awarded_score_clamped "" [("marks_awarded", JVal.jnum 999)] 3 (by decide)
  have h2 := awarded_score_clamped "" [("marks_awarded", JVal.jstr "lots")] 3 (by decide)
  exact ⟨h.2.2.2.1 999 (by rfl) (by decide), h2.2.2.2.2.1 (by rfl)⟩

/-- Claim C2: every branch of the marking call — missing key, call or
parse failure, non-object decode, successful validation — returns a
report whose `max_marks` equals the Question's authoritative value,
regardless of any model-supplied `max_marks`. -/
theorem report_max_marks_authoritative (hasClient : Bool) (env : CallEnv)
    (mm : Int) :
    (get_gpt_feedback hasClient env mm).max_marks = mm := by
  cases hasClient with
  | false => rfl
  | true =>
    show (pipelineReport env mm).max_marks = mm
    cases hc : (call_openai_structured env).1 with
    | none => simp [pipelineReport, hc, failReport]
    | some raw =>
      have hp : pipelineReport env mm = reportOfRaw raw mm := by
        simp [pipelineReport, hc]
      rw [hp]
      cases h : jsonLoads raw with
      | none => simp [reportOfRaw, h, failReport]
      | some v =>
        cases v <;> simp [reportOfRaw, h, failReport, validateReport]

/-- Claim C3: raw response text that fails to parse as JSON produces the
error report: `error = true`, awarded score 0, and the generic failure
summary.  `reportOfRaw` is a total function, so no parser exception can
reach the caller. -/
theorem parse_failure_error_report (raw : String) (mm : Int)
    (h : jsonLoads raw = none) :
    (reportOfRaw raw mm).error = true
    ∧ (reportOfRaw raw mm).marks_awarded = 0
    ∧ (reportOfRaw raw mm).summary =
        "System Error: marking failed. Please try submitting again." := by
  unfold reportOfRaw
  rw [h]
  exact ⟨rfl, rfl, rfl⟩

/-- Witness for C3: a concrete non-JSON body yields the error report. -/
theorem parse_failure_error_report_witness :
    (reportOfRaw "Sorry, I cannot grade this." 3).error = true
    ∧ (reportOfRaw "Sorry, I cannot grade this." 3).marks_awarded = 0 := by
  have h := parse_failure_error_report "Sorry, I cannot grade this." 3 (by rfl)
  exact ⟨h.1, h.2.1⟩

set_option maxRecDepth 4096 in
/-- Counterexample to claim C4: a response that embeds a valid JSON
object between braces inside surrounding prose.  Direct parsing fails,
the brace-delimited substring alone parses successfully, yet the
validator returns the error report — no pattern-search extraction is
attempted anywhere in `get_gpt_feedback`. -/
theorem no_brace_extraction_cex :
    jsonLoads ("Here is the report: " ++
      "\x7b\"marks_awarded\": 2, \"max_marks\": 3, \"summary\": \"ok\", " ++
      "\"feedback_points\": [], \"next_steps\": []\x7d" ++ " Hope this helps.") = none
    ∧ (jsonLoads ("\x7b\"marks_awarded\": 2, \"max_marks\": 3, \"summary\": \"ok\", " ++
        "\"feedback_points\": [], \"next_steps\": []\x7d")).isSome = true
    ∧ (reportOfRaw ("Here is the report: " ++
        "\x7b\"marks_awarded\": 2, \"max_marks\": 3, \"summary\": \"ok\", " ++
        "\"feedback_points\": [], \"next_steps\": []\x7d" ++ " Hope this helps.") 3).error
        = true := by
  exact ⟨rfl, rfl, rfl⟩

/-- Claim C4 as amended: when direct JSON parsing of the raw response
fails, the validator attempts no recovery at all — the result is exactly
the generic failure report, whatever text (including a brace-delimited
JSON object) the response contains. -/
theorem parse_failure_no_extraction (raw : String) (mm : Int)
    (h : jsonLoads raw = none) :
    reportOfRaw raw mm = failReport mm := by
  unfold reportOfRaw
  rw [h]

/-- Witness for the amended C4 at the embedded-JSON response. -/
theorem parse_failure_no_extraction_witness :
    reportOfRaw ("Here is your grade: " ++
      "\x7b\"marks_awarded\": 1, \"summary\": \"fair\"\x7d") 3 = failReport 3 := by
  exact parse_failure_no_extraction
    ("Here is your grade: " ++ "\x7b\"marks_awarded\": 1, \"summary\": \"fair\"\x7d") 3 rfl

/-- Counterexample to claim C5: a model response whose `feedback_points`
has 5 entries and whose `next_steps` has 4 survives validation intact —
the code truncates both lists at 8, not at 4 and 3. -/
theorem feedback_truncation_cex :
    (validateReport
      [("feedback_points", JVal.jarr
          [.jstr "a", .jstr "b", .jstr "c", .jstr "d", .jstr "e"]),
       ("next_steps", JVal.jarr [.jstr "p", .jstr "q", .jstr "r", .jstr "s"])]
      3).feedback_points.length = 5
    ∧ (validateReport
      [("feedback_points", JVal.jarr
          [.jstr "a", .jstr "b", .jstr "c", .jstr "d", .jstr "e"]),
       ("next_steps", JVal.jarr [.jstr "p", .jstr "q", .jstr "r", .jstr "s"])]
      3).next_steps.length = 4 := by
  exact ⟨rfl, rfl⟩

/-- `cleanList` keeps at most 8 entries. -/
lemma cleanList_length_le (l : List JVal) : (cleanList l).length ≤ 8 := by
  simp [cleanList, List.length_take]

/-- The validator's feedback list, pre-computed. -/
lemma validateReport_fps (data : List (String × JVal)) (mm : Int) :
    (validateReport data mm).feedback_points =
      match (jget data "feedback_points").getD (.jarr []) with
      | .jarr xs => cleanList xs
      | _ => [] := by
  rfl

/-- The validator's next-steps list, pre-computed. -/
lemma validateReport_ns (data : List (String × JVal)) (mm : Int) :
    (validateReport data mm).next_steps =
      match (jget data "next_steps").getD (.jarr []) with
      | .jarr xs => cleanList xs
      | _ => [] := by
  rfl

/-- Claim C5 as amended: after validation, `feedback_points` and
`next_steps` each hold at most 8 entries (the source truncates both with
`[:8]`); a non-list raw value for either field is replaced with the
empty list, a missing field yields the empty list, and neither case
makes the report an error. -/
theorem feedback_lists_bounded (data : List (String × JVal)) (mm : Int) :
    (validateReport data mm).feedback_points.length ≤ 8
    ∧ (validateReport data mm).next_steps.length ≤ 8
    ∧ (∀ v, jget data "feedback_points" = some v → isJArr v = false →
        (validateReport data mm).feedback_points = [])
    ∧ (∀ v, jget data "next_steps" = some v → isJArr v = false →
        (validateReport data mm).next_steps = [])
    ∧ (jget data "feedback_points" = none →
        (validateReport data mm).feedback_points = [])
    ∧ (jget data "next_steps" = none →
        (validateReport data mm).next_steps = [])
    ∧ (validateReport data mm).error = false := by
  refine ⟨?_, ?_, ?_, ?_, ?_, ?_, rfl⟩
  · rw [validateReport_fps]
    cases (jget data "feedback_points").getD (.jarr []) <;>
      simp [cleanList_length_le]
  · rw [validateReport_ns]
    cases (jget data "next_steps").getD (.jarr []) <;>
      simp [cleanList_length_le]
  · intro v hv hnl
    rw [validateReport_fps, hv]
    cases v <;> simp_all [isJArr]
  · intro v hv hnl
    rw [validateReport_ns, hv]
    cases v <;> simp_all [isJArr]
  · intro hv
    rw [validateReport_fps, hv]
    rfl
  · intro hv
    rw [validateReport_ns, hv]
    rfl

/-- Witness for the amended C5: a 10-entry feedback list is cut to 8, a
non-list `next_steps` becomes empty, and omitting both fields yields
empty lists with no error. -/
theorem feedback_lists_bounded_witness :
    (validateReport
      [("feedback_points", JVal.jarr
          [.jstr "a", .jstr "b", .jstr "c", .jstr "d", .jstr "e",
           .jstr "f", .jstr "g", .jstr "h", .jstr "i", .jstr "j"]),
       ("next_steps", JVal.jstr "not a list")]
      3).feedback_points.length ≤ 8
    ∧ (validateReport
      [("feedback_points", JVal.jarr
          [.jstr "a", .jstr "b", .jstr "c", .jstr "d", .jstr "e",
           .jstr "f", .jstr "g", .jstr "h", .jstr "i", .jstr "j"]),
       ("next_steps", JVal.jstr "not a list")]
      3).next_steps = []
    ∧ (validateReport [("marks_awarded", JVal.jnum 2), ("summary", JVal.jstr "ok")]
        3).feedback_points = []
    ∧ (validateReport [("marks_awarded", JVal.jnum 2), ("summary", JVal.jstr "ok")]
        3).error = false := by
  refine ⟨(feedback_lists_bounded _ 3).1, ?_, ?_, ?_⟩
  · exact (feedback_lists_bounded
      [("feedback_points", JVal.jarr
          [.jstr "a", .jstr "b", .jstr "c", .jstr "d", .jstr "e",
           .jstr "f", .jstr "g", .jstr "h", .jstr "i", .jstr "j"]),
       ("next_steps", JVal.jstr "not a list")] 3).2.2.2.1
      (JVal.jstr "not a list") rfl rfl
  · exact (feedback_lists_bounded
      [("marks_awarded", JVal.jnum 2), ("summary", JVal.jstr "ok")] 3).2.2.2.2.1 rfl
  · exact (feedback_lists_bounded
      [("marks_awarded", JVal.jnum 2), ("summary", JVal.jstr "ok")] 3).2.2.2.2.2.2

/-- Claim C6: a buffer whose pixels all match the white background has
no ink; a buffer (with at least RGB channels) in which more than 50
pixels deviate beyond the tolerance (colour distance over 25, visibly
per alpha when an alpha channel exists) has ink; and a submission
classified empty is rejected with a warning instead of reaching the
external marking call. -/
theorem canvas_ink_detection :
    (∀ img : CanvasImage,
      (∀ p ∈ img.pixels, p.getD 0 0 = 255 ∧ p.getD 1 0 = 255 ∧ p.getD 2 0 = 255) →
      canvas_has_ink (some img) = false)
    ∧ (∀ img : CanvasImage, 3 ≤ img.channels →
        50 < (img.pixels.filter (isInk img.channels)).length →
        canvas_has_ink (some img) = true)
    ∧ (∀ img : Option CanvasImage, canvas_has_ink img = false →
        submitDrawing img = .warn) := by
  refine ⟨?_, ?_, ?_⟩
  · intro img h
    unfold canvas_has_ink
    by_cases hch : img.channels < 3
    · simp [hch]
    · have hnil : img.pixels.filter (isInk img.channels) = [] := by
        rw [List.filter_eq_nil_iff]
        intro p hp
        obtain ⟨h0, h1, h2⟩ := h p hp
        simp only [isInk, pxDiff, h0, h1, h2]
        split <;> norm_num
      simp [hch, hnil]
  · intro img hch hcount
    have hnl : ¬ img.channels < 3 := by omega
    simp [canvas_has_ink, hnl, hcount]
  · intro img h
    cases img with
    | none => rfl
    | some d => simp [submitDrawing, h]

/-- Witness for C6: a 2×2 all-white RGBA canvas has no ink and is
rejected; a 60-pixel black stroke on an RGBA canvas counts as ink. -/
theorem canvas_ink_detection_witness :
    canvas_has_ink (some ⟨List.replicate 4 [255, 255, 255, 255], 4⟩) = false
    ∧ canvas_has_ink (some ⟨List.replicate 60 [0, 0, 0, 255], 4⟩) = true
    ∧ submitDrawing (some ⟨List.replicate 4 [255, 255, 255, 255], 4⟩) = .warn := by
  refine ⟨?_, ?_, ?_⟩
  · exact canvas_ink_detection.1 ⟨List.replicate 4 [255, 255, 255, 255], 4⟩ (by decide)
  · exact canvas_ink_detection.2.1 ⟨List.replicate 60 [0, 0, 0, 255], 4⟩ (by decide)
      (by decide)
  · exact canvas_ink_detection.2.2 (some ⟨List.replicate 4 [255, 255, 255, 255], 4⟩)
      (canvas_ink_detection.1 ⟨List.replicate 4 [255, 255, 255, 255], 4⟩ (by decide))

/-- Claim C7: a typed submission that is empty after trimming is
answered with a user warning and never reaches the marking call; the
marking call receives exactly the submissions that are nonempty after
trimming (the untrimmed original is what gets submitted). -/
theorem empty_text_rejected (text_val : String) :
    (pyStrip text_val = "" → submitTextAnswer text_val = .warn)
    ∧ (pyStrip text_val ≠ "" → submitTextAnswer text_val = .callModel text_val)
    ∧ (∀ s, submitTextAnswer text_val = .callModel s →
        pyStrip s ≠ "" ∧ s = text_val) := by
  refine ⟨?_, ?_, ?_⟩
  · intro h
    simp [submitTextAnswer, h]
  · intro h
    simp [submitTextAnswer, h]
  · intro s hs
    unfold submitTextAnswer at hs
    by_cases h : pyStrip text_val = ""
    · rw [if_pos h] at hs
      exact absurd hs (by simp)
    · rw [if_neg h] at hs
      cases hs
      exact ⟨h, rfl⟩

/-- Witness for C7: whitespace-only text warns; a real answer is
submitted unchanged. -/
theorem empty_text_rejected_witness :
    submitTextAnswer "   " = .warn
    ∧ submitTextAnswer " F = ma " = .callModel " F = ma " := by
  exact ⟨(empty_text_rejected "   ").1 rfl,
    (empty_text_rejected " F = ma ").2.1 (by decide)⟩

/-- Claim C9: the constructed marking request consists of exactly two
system messages (persona prompt, confidential scheme) and one user
message; the user-role content is built from the question text and the
submission only, so it is identical under any two mark schemes, and for
two submissions it differs only in the submission-derived items. -/
theorem scheme_confined_to_system_channel (question scheme scheme2 : String)
    (mm : Int) (sub : Submission) :
    buildMessages question scheme mm sub =
      [{ role := .system, content := .text (systemPrompt mm) },
       { role := .system, content := .text (schemeMsg scheme) },
       { role := .user, content := .items (userItems question sub) }]
    ∧ (buildMessages question scheme mm sub).filter
        (fun m => decide (m.role = .user)) =
      (buildMessages question scheme2 mm sub).filter
        (fun m => decide (m.role = .user))
    ∧ (buildMessages question scheme mm sub).filter
        (fun m => decide (m.role = .user)) =
      [{ role := .user, content := .items (userItems question sub) }]
    ∧ userItems question sub =
        .inputText ("QUESTION: " ++ question) :: submissionItems sub := by
  exact ⟨rfl, rfl, rfl, rfl⟩

/-- A call ladder that escaped with an exception produces the failure
report. -/
lemma pipeline_fail_of_exception (env : CallEnv) (mm : Int)
    (h : (call_openai_structured env).1 = none) :
    pipelineReport env mm = failReport mm := by
  simp [pipelineReport, h]

/-- A call ladder whose returned body does not parse produces the
failure report. -/
lemma pipeline_fail_of_bad_body (env : CallEnv) (mm : Int) (raw : String)
    (h : (call_openai_structured env).1 = some raw)
    (hl : jsonLoads raw = none) :
    pipelineReport env mm = failReport mm := by
  simp [pipelineReport, h, reportOfRaw, hl]

/-- Counterexample to claim C8: when the first Responses-API attempt
raises and the second succeeds, the client has made two primary
attempts before any degraded attempt — not exactly one. -/
theorem single_primary_attempt_cex :
    (call_openai_structured ⟨none, some "body", none, none, none⟩).2.1 = 2
    ∧ ¬ (call_openai_structured ⟨none, some "body", none, none, none⟩).2.1 = 1
    ∧ (call_openai_structured ⟨none, some "body", none, none, none⟩).2.2 = 0
    ∧ (call_openai_structured ⟨none, some "body", none, none, none⟩).1 = some "body" := by
  refine ⟨rfl, by decide, rfl, rfl⟩

/-- Claim C8 as amended: per submission the Marking Client makes
between one and three primary structured-output attempts (one per
reasoning-effort setting, stopping at the first nonempty body) and at
most two degraded chat attempts; a degraded attempt happens only after
all three primary attempts failed or returned a blank body; total
failure occurs only after both degraded attempts; and an escaped
exception or a non-parsing body surfaces as the generic failure report
rather than being retried. -/
theorem marking_call_attempt_bounds (env : CallEnv) (mm : Int) :
    (1 ≤ (call_openai_structured env).2.1 ∧ (call_openai_structured env).2.1 ≤ 3)
    ∧ (call_openai_structured env).2.2 ≤ 2
    ∧ (1 ≤ (call_openai_structured env).2.2 →
        okPrimary env.p1 = none ∧ okPrimary env.p2 = none ∧ okPrimary env.p3 = none)
    ∧ ((call_openai_structured env).1 = none →
        (call_openai_structured env).2.2 = 2 ∧ env.chatA = none ∧ env.chatB = none)
    ∧ ((call_openai_structured env).1 = none →
        pipelineReport env mm = failReport mm)
    ∧ (∀ raw, (call_openai_structured env).1 = some raw → jsonLoads raw = none →
        pipelineReport env mm = failReport mm) := by
  refine ⟨?_, ?_, ?_, ?_, pipeline_fail_of_exception env mm,
    fun raw h hl => pipeline_fail_of_bad_body env mm raw h hl⟩ <;>
  · rcases env with ⟨p1, p2, p3, cA, cB⟩
    simp only [call_openai_structured]
    cases okPrimary p1 <;> cases okPrimary p2 <;> cases okPrimary p3 <;>
      cases cA <;> cases cB <;> simp

/-- Witness for the amended C8: with every call failing, the ladder
makes 3 primary and 2 degraded attempts and the user sees the failure
report; a non-parsing body from a successful call also yields the
failure report. -/
theorem marking_call_attempt_bounds_witness :
    (call_openai_structured ⟨none, none, none, none, none⟩).2.1 = 3
    ∧ okPrimary (CallEnv.p1 ⟨none, none, none, none, none⟩) = none
    ∧ pipelineReport ⟨none, none, none, none, none⟩ 3 = failReport 3
    ∧ pipelineReport ⟨some "I refuse.", none, none, none, none⟩ 3 = failReport 3 := by
  refine ⟨rfl, ?_, ?_, ?_⟩
  · exact ((marking_call_attempt_bounds ⟨none, none, none, none, none⟩ 3).2.2.1
      (by decide)).1
  · exact (marking_call_attempt_bounds ⟨none, none, none, none, none⟩ 3).2.2.2.2.1 rfl
  · exact (marking_call_attempt_bounds ⟨some "I refuse.", none, none, none, none⟩
      3).2.2.2.2.2 "I refuse." rfl rfl

/-- Counterexample to claim C10: three rows with positive current and
identically zero voltage — realizable data entry (the table defaults to
zero voltages), and the slope case where the float64 fit is exact:
every resistance is exactly `0.0/1.0 = 0.0`, and `np.polyfit` on the
zero resistance column returns slope exactly `0.0` because the
least-squares solve is linear in the right-hand side and maps the exact
zero vector to exact zeros.  The rows pass the 3-valid-rows gate, and
with student gradient 1 the percentage-difference check evaluates
`(1 - m) / m` with divisor exactly zero — the guard tests the student's
gradient, not the divisor.  (numpy evaluates the division to `inf`
under a divide-by-zero RuntimeWarning rather than raising, but a
division by zero is evaluated, contrary to the claim.) -/
theorem grad_check_div_by_zero_cex :
    analysisStep [⟨10, 0, 1⟩, ⟨20, 0, 1⟩, ⟨30, 0, 1⟩] = .fitted 0
    ∧ analysisDividesByZero [⟨10, 0, 1⟩, ⟨20, 0, 1⟩, ⟨30, 0, 1⟩] 1 = true := by
  constructor
  · simp [analysisStep, validData, resistance, fitSlope, fitSlopeNum, fitSlopeDen,
      qsum]
  · simp [analysisDividesByZero, analysisStep, validData, resistance, fitSlope,
      fitSlopeNum, fitSlopeDen, qsum, gradDiffCheck]

/-- Claim C10 as amended: the resistance division is guarded — it is
evaluated only for rows with positive current, rows without it become
missing and are dropped, and fitting requires at least 3 surviving rows;
the percentage-difference check substitutes 100.0 when the student's
gradient is 0; but that guard does not protect the division, whose
divisor is the fitted gradient `m`: a zero divisor is evaluated exactly
when the student's gradient is nonzero and the fitted gradient is 0 —
a case the program reaches, e.g. on an identically-zero voltage column
with positive currents, where the float64 fit is exact (see the
counterexample). -/
theorem analysis_division_guards :
    (∀ r : DataRow, r.current ≤ 0 → resistance r = none)
    ∧ (∀ r : DataRow, 0 < r.current → resistance r = some (r.voltage / r.current))
    ∧ (∀ rows : List DataRow, ∀ p ∈ validData rows,
        ∃ r ∈ rows, 0 < r.current ∧ p = (r.length, r.voltage / r.current))
    ∧ (∀ rows : List DataRow, (validData rows).length < 3 →
        analysisStep rows = .warnInsufficient)
    ∧ (∀ m : ℚ, gradDiffCheck 0 m = (100, false))
    ∧ (∀ g m : ℚ, (gradDiffCheck g m).2 = true ↔ (g ≠ 0 ∧ m = 0)) := by
  refine ⟨?_, ?_, ?_, ?_, ?_, ?_⟩
  · intro r h
    simp [resistance, not_lt.mpr h]
  · intro r h
    simp [resistance, h]
  · intro rows p hp
    rw [validData, List.mem_filterMap] at hp
    obtain ⟨r, hr, hf⟩ := hp
    by_cases hc : 0 < r.current
    · refine ⟨r, hr, hc, ?_⟩
      simp [resistance, hc] at hf
      exact hf.symm
    · simp [resistance, hc] at hf
  · intro rows h
    simp [analysisStep, h]
  · intro m
    simp [gradDiffCheck]
  · intro g m
    by_cases hg : g = 0
    · simp [gradDiffCheck, hg]
    · simp [gradDiffCheck, hg]

/-- Witness for the amended C10 at concrete inputs: a zero-current row
yields no resistance, too few rows warn, a zero student gradient gets
the substituted 100, and student gradient 1 against fitted gradient 0
does divide by zero. -/
theorem analysis_division_guards_witness :
    resistance ⟨10, 2, 0⟩ = none
    ∧ analysisStep [⟨10, 2, 1⟩, ⟨20, 2, 1⟩] = .warnInsufficient
    ∧ gradDiffCheck 0 5 = (100, false)
    ∧ (gradDiffCheck 1 0).2 = true := by
  refine ⟨?_, ?_, ?_, ?_⟩
  · exact analysis_division_guards.1 ⟨10, 2, 0⟩ le_rfl
  · refine analysis_division_guards.2.2.2.1 [⟨10, 2, 1⟩, ⟨20, 2, 1⟩] ?_
    simp [validData, resistance]
  · exact analysis_division_guards.2.2.2.2.1 5
  · exact (analysis_division_guards.2.2.2.2.2 1 0).mpr ⟨one_ne_zero, rfl⟩
